import Mathlib

/-!
Verification development for the batched data-loading and caching subsystem of
JNv3/apps/backend-fastapi: shallow embeddings of
`app/core/dataloaders.py`, `app/services/cache_service.py` and
`app/core/monitoring.py`, followed by theorems settling the specification
claims about them.

Machine integers do not occur (Python ints are unbounded); 32-bit arithmetic
inside MD5 is `Nat` with explicit `% 4294967296`.  Python dicts are modelled
as association lists with first-match lookup, so insertion is `cons` (a new
binding shadows an older one, as dict assignment overwrites).  A dict built by
comprehension with later entries overwriting earlier ones is modelled by
reversing the source list before building the association list.
-/

namespace JN

/-- A `Company` row as the batch query sees it: primary key plus opaque
column data. -/
structure Company where
  id : Nat
  payload : Nat
deriving DecidableEq, Repr

/-- Request-scoped state of a `BaseDataLoader` instance, specialised to the
company loader.  `cache` is the `self._cache` dict mapping cache-key strings
to previously returned batch results.  `fetchLog` is observational
instrumentation: it records every invocation of the injected batch function
together with its argument list, so that theorems can count fetches.  The
source also declares `self._batch_requests` and `self._batch_promises`, but
no method ever reads or writes them, so they are omitted. -/
structure LoaderState where
  cache : List (String × List (Option Company))
  fetchLog : List (List Nat)
deriving DecidableEq, Repr

/-- A freshly constructed loader: empty `_cache`, no fetches performed. -/
def emptyLoader : LoaderState := ⟨[], []⟩

/-- `cache_key = f"{loader_key}:{','.join(str(k) for k in keys)}"`
(first line of `BaseDataLoader._execute_batch`). -/
def cacheKeyOf (loader_key : String) (keys : List Nat) : String :=
  loader_key ++ ":" ++ String.intercalate "," (keys.map toString)

/-- `CompanyDataLoader._batch_load_companies`: `SELECT ... WHERE id IN ids`,
then `company_map = {c.id: c for c in companies}` (later rows overwrite
earlier ones, hence the `reverse` before the first-match `find?`), then
`[company_map.get(i) for i in company_ids]`. -/
def batch_load_companies (db : List Company) (ids : List Nat) :
    List (Option Company) :=
  let companies := db.filter (fun c => ids.contains c.id)
  ids.map (fun i => companies.reverse.find? (fun c => c.id == i))

/-- `BaseDataLoader._execute_batch`: build the cache-key string from the
whole key list, return the memoized result on a hit, otherwise await
`batch_fn(keys)` (recorded in `fetchLog`), store the result under the
cache key and return it. -/
def execute_batch (batch_fn : List Nat → List (Option Company))
    (st : LoaderState) (loader_key : String) (keys : List Nat) :
    List (Option Company) × LoaderState :=
  let ck := cacheKeyOf loader_key keys
  match st.cache.lookup ck with
  | some results => (results, st)
  | none =>
    let results := batch_fn keys
    (results, ⟨(ck, results) :: st.cache, st.fetchLog ++ [keys]⟩)

namespace CompanyDataLoader

/-- `CompanyDataLoader.load_many`: `if not company_ids: return []`, else
`_execute_batch("companies", self._batch_load_companies, company_ids)`. -/
def load_many (db : List Company) (st : LoaderState)
    (company_ids : List Nat) : List (Option Company) × LoaderState :=
  if company_ids.isEmpty then ([], st)
  else execute_batch (batch_load_companies db) st "companies" company_ids

/-- `CompanyDataLoader.load`: `companies = await self.load_many([company_id])`
then `companies[0] if companies else None`. -/
def load (db : List Company) (st : LoaderState) (company_id : Nat) :
    Option Company × LoaderState :=
  let r := load_many db st [company_id]
  (r.1.headD none, r.2)

end CompanyDataLoader

/-- The value the company batch query's result map associates with id `i`:
the last row of `db` carrying that id (dict-comprehension overwrite
semantics), or `none` when no row matches. -/
def dbCompany (db : List Company) (i : Nat) : Option Company :=
  db.reverse.find? (fun c => c.id == i)

/-- Phase of one resolver task executing `CompanyDataLoader.load key`
against the shared loader state.  In `_execute_batch` the dict membership
test on `self._cache` happens before `await batch_fn(keys)` and the dict
store happens after it; the `await` is a cooperative suspension point, so
another task may run between the check and the store.  `awaitingFetch`
holds the in-flight batch result that has been issued but not yet stored. -/
inductive TaskPhase where
  | ready
  | awaitingFetch (pending : List (Option Company))
  | done (value : Option Company)
deriving DecidableEq, Repr

/-- One cooperative scheduling step of a task running
`CompanyDataLoader.load key`.  From `ready`, the task performs the cache
membership test: on a hit it finishes immediately; on a miss it issues the
batch fetch (recorded in `fetchLog`) and suspends at the `await`.  From
`awaitingFetch`, the task resumes after the fetch, stores the result in the
cache and finishes. -/
def stepLoadTask (db : List Company) (key : Nat) :
    TaskPhase × LoaderState → TaskPhase × LoaderState
  | (.ready, st) =>
    match st.cache.lookup (cacheKeyOf "companies" [key]) with
    | some results => (.done (results.headD none), st)
    | none =>
      (.awaitingFetch (batch_load_companies db [key]),
       ⟨st.cache, st.fetchLog ++ [[key]]⟩)
  | (.awaitingFetch results, st) =>
    (.done (results.headD none),
     ⟨(cacheKeyOf "companies" [key], results) :: st.cache, st.fetchLog⟩)
  | (.done v, st) => (.done v, st)

/-- Run a cooperative schedule over two concurrent `load` tasks sharing one
loader: `true` steps the first task (loading `k₁`), `false` steps the
second (loading `k₂`). -/
def runTwoTasks (db : List Company) (k₁ k₂ : Nat) :
    List Bool → TaskPhase × TaskPhase × LoaderState →
    TaskPhase × TaskPhase × LoaderState
  | [], s => s
  | b :: rest, (t₁, t₂, st) =>
    if b then
      let r := stepLoadTask db k₁ (t₁, st)
      runTwoTasks db k₁ k₂ rest (r.1, t₂, r.2)
    else
      let r := stepLoadTask db k₂ (t₂, st)
      runTwoTasks db k₁ k₂ rest (t₁, r.1, r.2)

/-- A `JobApplication` row: the user who applied, the job applied to, and
opaque column data. -/
structure JobApplication where
  user_id : Nat
  job_id : Nat
  payload : Nat
deriving DecidableEq, Repr

/-- Request-scoped state of a `JobApplicationDataLoader`: `self._cache` maps
cache-key strings (one per user) to the job-id → application map fetched for
that user; `fetchLog` records each `_batch_load_user_applications` call with
its `(user_id, job_ids)` argument. -/
structure AppLoaderState where
  cache : List (String × List (Nat × JobApplication))
  fetchLog : List (Nat × List Nat)
deriving DecidableEq, Repr

/-- A freshly constructed application loader. -/
def emptyAppLoader : AppLoaderState := ⟨[], []⟩

namespace JobApplicationDataLoader

/-- `_batch_load_user_applications`: `SELECT ... WHERE user_id == u AND
job_id IN job_ids`, then the dict `{a.job_id: a for a in applications}`
(later rows overwrite, hence the `reverse` so that first-match lookup finds
the last row). -/
def batch_load_user_applications (db : List JobApplication) (user_id : Nat)
    (job_ids : List Nat) : List (Nat × JobApplication) :=
  let apps := db.filter
    (fun a => a.user_id == user_id && job_ids.contains a.job_id)
  apps.reverse.map (fun a => (a.job_id, a))

/-- `load_user_applications_for_jobs`: `if not job_ids: return {}`;
`cache_key = f"user_applications:{user_id}"`; if the key is absent the
batch query runs with *this call's* `job_ids` and its result map is stored;
finally `{job_id: cached_applications.get(job_id) for job_id in job_ids}`
is built from the stored map, whichever call stored it. -/
def load_user_applications_for_jobs (db : List JobApplication)
    (st : AppLoaderState) (user_id : Nat) (job_ids : List Nat) :
    List (Nat × Option JobApplication) × AppLoaderState :=
  if job_ids.isEmpty then ([], st)
  else
    let ck := "user_applications:" ++ toString user_id
    let st' : AppLoaderState :=
      match st.cache.lookup ck with
      | some _ => st
      | none =>
        ⟨(ck, batch_load_user_applications db user_id job_ids) :: st.cache,
         st.fetchLog ++ [(user_id, job_ids)]⟩
    let cached := (st'.cache.lookup ck).getD []
    (job_ids.map (fun j => (j, cached.lookup j)), st')

end JobApplicationDataLoader

/-! ## cache_service.py: the Redis-backed process cache -/

/-- Python exception kinds raised by the embedded code paths. -/
inductive PyError where
  | attributeError
  | connectionError
deriving DecidableEq, Repr

/-- One Redis value: the stored payload string and its absolute expiry time
in seconds (`SETEX key ttl value` sets expiry `now + ttl`). -/
structure RedisEntry where
  value : String
  expiry : Nat
deriving DecidableEq, Repr

/-- The backing Redis store shared by all requests.  `down` models a broken
connection: every command raises. -/
structure RedisStore where
  entries : List (String × RedisEntry)
  down : Bool
deriving DecidableEq, Repr

/-- Redis `GET`: the stored value if present and not yet expired, `none`
otherwise (Redis treats an expired key as absent). -/
def redisGet (st : RedisStore) (now : Nat) (k : String) :
    Except PyError (Option String) :=
  if st.down then .error .connectionError
  else
    match st.entries.lookup k with
    | some e => if now < e.expiry then .ok (some e.value) else .ok none
    | none => .ok none

/-- Redis `SETEX`: store `v` under `k` with expiry `now + ttl`, overwriting
any previous binding for `k`. -/
def redisSetex (st : RedisStore) (now : Nat) (k : String) (ttl : Nat)
    (v : String) : Except PyError RedisStore :=
  if st.down then .error .connectionError
  else .ok ⟨(k, ⟨v, now + ttl⟩) :: st.entries.filter (fun e => !(e.1 == k)),
            st.down⟩

/-- Redis `KEYS pat` for the trailing-star glob patterns the service uses
(`"jobquest:jobs:*"` and similar): all stored key names starting with the
pattern minus its final `*` (matching is on the character sequences). -/
def redisKeys (st : RedisStore) (pat : String) :
    Except PyError (List String) :=
  if st.down then .error .connectionError
  else .ok ((st.entries.map Prod.fst).filter
    (fun k => pat.data.dropLast.isPrefixOf k.data))

/-- Redis `DEL ks...`: remove the named keys, returning the new store and
the number of bindings removed. -/
def redisDelete (st : RedisStore) (ks : List String) :
    Except PyError (RedisStore × Nat) :=
  if st.down then .error .connectionError
  else .ok (⟨st.entries.filter (fun e => !(ks.contains e.1)), st.down⟩,
            (st.entries.filter (fun e => ks.contains e.1)).length)

/-- `CacheService` instance state: just the optional Redis client
(`self.redis_client`, `None` until `connect()` succeeds).  The constructor
also assigns the constant tables `self.ttl_config` and `self.key_patterns`,
modelled below as top-level constants since no method mutates them.
Crucially, `__init__` assigns *no other attributes*: in particular
`search_ttl` and `company_ttl` are never assigned anywhere in the class. -/
structure CacheService where
  redis_client : Option RedisStore
deriving DecidableEq, Repr

/-- `self.ttl_config` as assigned in `CacheService.__init__`. -/
def ttl_config : List (String × Nat) :=
  [("default", 300), ("search", 180), ("company", 3600), ("user", 1800),
   ("job_detail", 600), ("graphql_query", 300), ("application", 900),
   ("session", 86400)]

/-- The attribute access `self.search_ttl` in `set_job_search_results`
(line 161).  `CacheService` never assigns an attribute of that name (its
`__init__` defines only `redis_client`, `ttl_config` and `key_patterns`,
and no other code in the repository assigns it), so the access raises
`AttributeError`. -/
def search_ttl : Except PyError Nat := .error .attributeError

/-- A Python value occurring among the keyword arguments that
`_generate_cache_key` receives: `None`, a bool, an int or a str. -/
inductive PyVal where
  | null
  | bool (b : Bool)
  | int (n : Int)
  | str (s : String)
deriving DecidableEq, Repr

/-- Lowercase hex digit. -/
def hexChar (n : Nat) : Char :=
  if n < 10 then Char.ofNat (48 + n) else Char.ofNat (87 + n)

/-- Four lowercase hex digits (for `\uXXXX` escapes). -/
def hex4 (n : Nat) : List Char :=
  [hexChar (n / 4096 % 16), hexChar (n / 256 % 16),
   hexChar (n / 16 % 16), hexChar (n % 16)]

/-- `json.dumps` escaping of one character with the default
`ensure_ascii=True`: the two mandatory escapes, the short control escapes,
`\uXXXX` for other control characters and for everything non-ASCII
(astral code points become surrogate pairs). -/
def jsonEscapeChar (c : Char) : List Char :=
  if c = '"' then ['\\', '"']
  else if c = '\\' then ['\\', '\\']
  else if c = '\n' then ['\\', 'n']
  else if c = '\t' then ['\\', 't']
  else if c = '\r' then ['\\', 'r']
  else if c.toNat = 8 then ['\\', 'b']
  else if c.toNat = 12 then ['\\', 'f']
  else if c.toNat < 32 then '\\' :: 'u' :: hex4 c.toNat
  else if c.toNat < 128 then [c]
  else if c.toNat < 65536 then '\\' :: 'u' :: hex4 c.toNat
  else
    let v := c.toNat - 65536
    '\\' :: 'u' :: hex4 (55296 + v / 1024) ++ '\\' :: 'u' :: hex4 (56320 + v % 1024)

/-- `json.dumps` of a Python str: double quotes around the escaped body. -/
def jsonStr (s : String) : String :=
  "\"" ++ String.mk (s.data.flatMap jsonEscapeChar) ++ "\""

/-- `json.dumps` of one keyword-argument value. -/
def PyVal.serialize : PyVal → String
  | .null => "null"
  | .bool true => "true"
  | .bool false => "false"
  | .int n => toString n
  | .str s => jsonStr s

/-- `json.dumps` of one `(key, value)` tuple: a two-element JSON array with
the default `", "` item separator. -/
def serializePair (p : String × PyVal) : String :=
  "[" ++ jsonStr p.1 ++ ", " ++ p.2.serialize ++ "]"

/-- `json.dumps(sorted_params, sort_keys=True)`: `sorted_params` is a list
of tuples, serialized as a JSON array of two-element arrays (`sort_keys`
only affects dicts, of which there are none). -/
def serializeParams (l : List (String × PyVal)) : String :=
  "[" ++ String.intercalate ", " (l.map serializePair) ++ "]"

/-- UTF-8 encoding of one character (`str.encode()`), as a list of byte
values. -/
def utf8EncodeChar (c : Char) : List Nat :=
  let n := c.toNat
  if n < 128 then [n]
  else if n < 2048 then [192 + n / 64, 128 + n % 64]
  else if n < 65536 then
    [224 + n / 4096, 128 + n / 64 % 64, 128 + n % 64]
  else
    [240 + n / 262144, 128 + n / 4096 % 64, 128 + n / 64 % 64, 128 + n % 64]

/-- `params_str.encode()`: UTF-8 bytes of the string. -/
def utf8Encode (s : String) : List Nat := s.data.flatMap utf8EncodeChar

/-- MD5 sine-derived round constants `K[0..63]`. -/
def md5K : List Nat :=
  [3614090360, 3905402710, 606105819, 3250441966, 4118548399, 1200080426,
   2821735955, 4249261313, 1770035416, 2336552879, 4294925233, 2304563134,
   1804603682, 4254626195, 2792965006, 1236535329, 4129170786, 3225465664,
   643717713, 3921069994, 3593408605, 38016083, 3634488961, 3889429448,
   568446438, 3275163606, 4107603335, 1163531501, 2850285829, 4243563512,
   1735328473, 2368359562, 4294588738, 2272392833, 1839030562, 4259657740,
   2763975236, 1272893353, 4139469664, 3200236656, 681279174, 3936430074,
   3572445317, 76029189, 3654602809, 3873151461, 530742520, 3299628645,
   4096336452, 1126891415, 2878612391, 4237533241, 1700485571, 2399980690,
   4293915773, 2240044497, 1873313359, 4264355552, 2734768916, 1309151649,
   4149444226, 3174756917, 718787259, 3951481745]

/-- MD5 per-round left-rotation amounts `s[0..63]`. -/
def md5S : List Nat :=
  [7, 12, 17, 22, 7, 12, 17, 22, 7, 12, 17, 22, 7, 12, 17, 22,
   5, 9, 14, 20, 5, 9, 14, 20, 5, 9, 14, 20, 5, 9, 14, 20,
   4, 11, 16, 23, 4, 11, 16, 23, 4, 11, 16, 23, 4, 11, 16, 23,
   6, 10, 15, 21, 6, 10, 15, 21, 6, 10, 15, 21, 6, 10, 15, 21]

/-- 32-bit left rotation on `Nat` (inputs below `2^32`). -/
def rotl32 (x s : Nat) : Nat :=
  ((x <<< s) ||| (x >>> (32 - s))) % 4294967296

/-- Little-endian 4-byte serialization of a 32-bit word. -/
def toLE4 (x : Nat) : List Nat :=
  [x % 256, x / 256 % 256, x / 65536 % 256, x / 16777216 % 256]

/-- Little-endian 8-byte serialization of the 64-bit message bit length. -/
def toLE8 (x : Nat) : List Nat :=
  toLE4 (x % 4294967296) ++ toLE4 (x / 4294967296 % 4294967296)

/-- MD5 padding: append `0x80`, zero-pad to 56 mod 64, append the 64-bit
little-endian bit length. -/
def md5Pad (msg : List Nat) : List Nat :=
  let z := (120 - (msg.length + 1) % 64) % 64
  msg ++ 128 :: List.replicate z 0 ++ toLE8 (8 * msg.length)

/-- The `j`-th little-endian 32-bit word of a 64-byte chunk. -/
def leWord (chunk : List Nat) (j : Nat) : Nat :=
  chunk.getD (4 * j) 0 + 256 * chunk.getD (4 * j + 1) 0 +
    65536 * chunk.getD (4 * j + 2) 0 + 16777216 * chunk.getD (4 * j + 3) 0

/-- The four 32-bit words of the MD5 internal state. -/
structure MD5State where
  a : Nat
  b : Nat
  c : Nat
  d : Nat
deriving DecidableEq, Repr

/-- One of the 64 MD5 rounds on one chunk. -/
def md5Round (chunk : List Nat) (st : MD5State) (i : Nat) : MD5State :=
  let fg : Nat × Nat :=
    if i < 16 then
      ((st.b &&& st.c) ||| ((st.b ^^^ 4294967295) &&& st.d), i)
    else if i < 32 then
      ((st.d &&& st.b) ||| ((st.d ^^^ 4294967295) &&& st.c), (5 * i + 1) % 16)
    else if i < 48 then
      (st.b ^^^ st.c ^^^ st.d, (3 * i + 5) % 16)
    else
      (st.c ^^^ (st.b ||| (st.d ^^^ 4294967295)), (7 * i) % 16)
  let f := (fg.1 + st.a + md5K.getD i 0 + leWord chunk fg.2) % 4294967296
  ⟨st.d, (st.b + rotl32 f (md5S.getD i 0)) % 4294967296, st.b, st.c⟩

/-- MD5 compression of one 64-byte chunk: 64 rounds, then add the
incoming state words modulo `2^32`. -/
def md5Chunk (st : MD5State) (chunk : List Nat) : MD5State :=
  let r := (List.range 64).foldl (md5Round chunk) st
  ⟨(st.a + r.a) % 4294967296, (st.b + r.b) % 4294967296,
   (st.c + r.c) % 4294967296, (st.d + r.d) % 4294967296⟩

/-- Fold the compression function over the first `n` 64-byte chunks. -/
def md5Chunks : Nat → List Nat → MD5State → MD5State
  | 0, _, st => st
  | n + 1, msg, st => md5Chunks n (msg.drop 64) (md5Chunk st (msg.take 64))

/-- `hashlib.md5(bytes).digest()`: the 16 digest bytes. -/
def md5Bytes (msg : List Nat) : List Nat :=
  let padded := md5Pad msg
  let st := md5Chunks (padded.length / 64) padded
    ⟨1732584193, 4023233417, 2562383102, 271733878⟩
  toLE4 st.a ++ toLE4 st.b ++ toLE4 st.c ++ toLE4 st.d

/-- Two lowercase hex digits of one byte. -/
def byteHex (b : Nat) : List Char := [hexChar (b / 16), hexChar (b % 16)]

/-- `hashlib.md5(bytes).hexdigest()` as a character list (32 hex digits). -/
def md5HexChars (msg : List Nat) : List Char :=
  (md5Bytes msg).flatMap byteHex

/-- The comparison `sorted(kwargs.items())` uses, restricted to its effect
on dict items: tuples are compared componentwise, and since the keys of a
dict are pairwise distinct the key comparison alone decides the order. -/
def itemLE (p q : String × PyVal) : Bool := decide (p.1 ≤ q.1)

/-- `CacheService._generate_cache_key(prefix, **kwargs)`:
`sorted_params = sorted(kwargs.items())`,
`params_str = json.dumps(sorted_params, sort_keys=True)`,
`params_hash = hashlib.md5(params_str.encode()).hexdigest()[:8]`,
`return f"jobquest:{prefix}:{params_hash}"`. -/
def generate_cache_key (pre : String) (kwargs : List (String × PyVal)) :
    String :=
  let sorted_params := kwargs.mergeSort itemLE
  let params_str := serializeParams sorted_params
  let params_hash : String := ⟨(md5HexChars (utf8Encode params_str)).take 8⟩
  "jobquest:" ++ pre ++ ":" ++ params_hash

/-- The eight keyword parameters of `get_job_search_results` /
`set_job_search_results`, with their Python types. -/
structure SearchParams where
  limit : Int
  offset : Int
  search : Option String
  location : Option String
  job_type : Option String
  experience_level : Option String
  remote_type : Option String
  user_created : Option Bool
deriving DecidableEq, Repr

/-- An `Optional[str]` argument as the `PyVal` it contributes. -/
def optStr : Option String → PyVal
  | none => .null
  | some s => .str s

/-- An `Optional[bool]` argument as the `PyVal` it contributes. -/
def optBool : Option Bool → PyVal
  | none => .null
  | some b => .bool b

/-- The keyword arguments both search-cache methods pass to
`_generate_cache_key("jobs", ...)`, in source order. -/
def searchKwargs (p : SearchParams) : List (String × PyVal) :=
  [("limit", .int p.limit), ("offset", .int p.offset),
   ("search", optStr p.search), ("location", optStr p.location),
   ("job_type", optStr p.job_type),
   ("experience_level", optStr p.experience_level),
   ("remote_type", optStr p.remote_type),
   ("user_created", optBool p.user_created)]

/-- `CacheService.get_job_search_results`: `None` when no client; otherwise
build the key and `GET` it inside `try`, returning the decoded payload on a
truthy hit, `None` on a miss or on any exception.  The stored payload is
kept as its wire string; `json.loads` of what `json.dumps` produced is its
inverse, so returning the wire string is faithful up to decoding. -/
def get_job_search_results (svc : CacheService) (now : Nat)
    (p : SearchParams) : Option String :=
  match svc.redis_client with
  | none => none
  | some st =>
    let ck := generate_cache_key "jobs" (searchKwargs p)
    match redisGet st now ck with
    | .ok (some data) => if data.isEmpty then none else some data
    | .ok none => none
    | .error _ => none

/-- `CacheService.set_job_search_results`: `False` when no client;
otherwise, inside `try`, build the key and the payload and call
`self.redis_client.setex(cache_key, self.search_ttl, json.dumps(...))`.
Evaluating the argument `self.search_ttl` raises `AttributeError`, which
the `except` swallows, returning `False`.  The dead `.ok` branch shows
what would happen if the attribute existed.  Returns the flag and the
resulting store. -/
def set_job_search_results (svc : CacheService) (now : Nat)
    (p : SearchParams) (payload : String) : Bool × Option RedisStore :=
  match svc.redis_client with
  | none => (false, none)
  | some st =>
    let ck := generate_cache_key "jobs" (searchKwargs p)
    match search_ttl with
    | .error _ => (false, some st)
    | .ok ttl =>
      match redisSetex st now ck ttl payload with
      | .ok st' => (true, some st')
      | .error _ => (false, some st)

/-- `CacheService.invalidate_job_caches`: `return` (None) when no client;
otherwise, inside `try`, `KEYS "jobquest:jobs:*"`, and if any were found,
`DEL` them (the count is only printed); exceptions are swallowed.  Every
path returns Python `None`, modelled as the second component `none` of
type `Option Nat` (a hypothetical `return len(job_keys)` would be
`some n`).  The first component is the resulting store. -/
def invalidate_job_caches (svc : CacheService) :
    Option RedisStore × Option Nat :=
  match svc.redis_client with
  | none => (none, none)
  | some st =>
    match redisKeys st "jobquest:jobs:*" with
    | .error _ => (some st, none)
    | .ok job_keys =>
      if job_keys.isEmpty then (some st, none)
      else
        match redisDelete st job_keys with
        | .ok (st', _) => (some st', none)
        | .error _ => (some st, none)

/-! ## monitoring.py: the cache-timing helper -/

/-- One entry of `MetricsCollector.cache_operations` as appended by
`record_cache_operation`. -/
structure CacheOp where
  opType : String
  hit : Bool
  duration_ms : Nat
deriving DecidableEq, Repr

/-- The part of `MetricsCollector` state that `record_cache_operation`
touches. -/
structure MetricsCollector where
  cache_operations : List CacheOp
deriving DecidableEq, Repr

/-- `MetricsCollector.record_cache_operation`: append the operation record
(the derived rolling hit rate is a function of this list). -/
def record_cache_operation (m : MetricsCollector) (operation_type : String)
    (hit : Bool) (duration_ms : Nat) : MetricsCollector :=
  ⟨m.cache_operations ++ [⟨operation_type, hit, duration_ms⟩]⟩

/-- The callback `lambda: setattr(locals(), 'hit', True)` that
`track_cache_operation` yields to its body.  `locals()` evaluated inside
the lambda returns a fresh dict of the lambda's own (empty) namespace, and
`setattr` on a dict raises `AttributeError`; in no case is the enclosing
function's `hit` local rebound.  Modelled as a transformer of the enclosing
`hit` local returning it unchanged together with the raised error. -/
def hitCallback (hit : Bool) : Bool × Option PyError :=
  (hit, some .attributeError)

/-- The body of a `with track_cache_operation(...)` block that attempts to
invoke the provided callback `n` times: an invocation that raises aborts
the body (the exception propagates out through the `yield`), and the
enclosing `hit` local is whatever the invocations left behind. -/
def runBody : Nat → Bool → Bool
  | 0, h => h
  | n + 1, h =>
    let r := hitCallback h
    match r.2 with
    | some _ => r.1
    | none => runBody n r.1

/-- `track_cache_operation(operation_type)` around a body that invokes the
yielded `"hit"` callback `callbackCalls` times: `hit = False` before the
`yield`, and the `finally` clause records the operation with whatever `hit`
holds afterwards. -/
def track_cache_operation (m : MetricsCollector) (operation_type : String)
    (callbackCalls : Nat) (duration_ms : Nat) : MetricsCollector :=
  let hit := false
  let finalHit := runBody callbackCalls hit
  record_cache_operation m operation_type finalHit duration_ms

/-! ## Theorems -/

/-- Auxiliary: `find?` is unchanged by a `filter` whose predicate is
implied by the search predicate (removed elements can never be found). -/
theorem find?_filter_of_imp {α : Type} (l : List α) (p q : α → Bool)
    (h : ∀ a, p a = true → q a = true) :
    (l.filter q).find? p = l.find? p := by
  induction l with
  | nil => rfl
  | cons a t ih =>
    cases hq : q a with
    | true =>
      rw [List.filter_cons_of_pos hq]
      cases hp : p a with
      | true => rw [List.find?_cons_of_pos _ hp, List.find?_cons_of_pos _ hp]
      | false =>
        rw [List.find?_cons_of_neg _ (by simp [hp]),
          List.find?_cons_of_neg _ (by simp [hp]), ih]
    | false =>
      have hp : p a = false := by
        cases hpa : p a with
        | true => exact absurd (h a hpa) (by simp [hq])
        | false => rfl
      rw [List.filter_cons_of_neg (by simp [hq]), ih,
        List.find?_cons_of_neg _ (by simp [hp])]

/-- The company batch query returns, for each requested id, the last
matching database row: restricting the scan to rows whose id occurs in the
request list does not change what `find?` sees for a requested id. -/
theorem batch_load_companies_eq_map (db : List Company) (ids : List Nat) :
    batch_load_companies db ids = ids.map (dbCompany db) := by
  simp only [batch_load_companies, dbCompany]
  refine List.map_congr_left (fun i hi => ?_)
  rw [← List.filter_reverse]
  refine find?_filter_of_imp _ _ _ (fun c hc => ?_)
  have hc' : c.id = i := by simpa using hc
  simpa [hc'] using hi

/-- C3: when the exact requested key list is not already memoized (in
particular on a fresh loader), `load_many` returns the list aligned with
`company_ids`: same length, positional order preserved, each occurrence of
a duplicated id resolving to the same value, and every id absent from the
batch query's result map resolving to `none` rather than an error. -/
theorem load_many_aligned (db : List Company) (st : LoaderState)
    (ids : List Nat)
    (h : st.cache.lookup (cacheKeyOf "companies" ids) = none) :
    (CompanyDataLoader.load_many db st ids).1 = ids.map (dbCompany db) ∧
    (CompanyDataLoader.load_many db st ids).1.length = ids.length := by
  have hmain :
      (CompanyDataLoader.load_many db st ids).1 = ids.map (dbCompany db) := by
    unfold CompanyDataLoader.load_many
    cases hids : ids.isEmpty with
    | true =>
      have : ids = [] := by simpa [List.isEmpty_iff] using hids
      simp [hids, this]
    | false => simp [hids, execute_batch, h, batch_load_companies_eq_map]
  exact ⟨hmain, by rw [hmain]; simp⟩

/-- C3 witness: `load_many [1, 2, 1]` on a fresh loader over a two-row
database satisfies the hypothesis, and the aligned result concretely is
`[x, y, x]` with the duplicate id resolved twice to the same row. -/
theorem load_many_aligned_witness :
    (emptyLoader.cache.lookup (cacheKeyOf "companies" [1, 2, 1]) = none) ∧
    (CompanyDataLoader.load_many [⟨1, 10⟩, ⟨2, 20⟩] emptyLoader
        [1, 2, 1]).1 = [1, 2, 1].map (dbCompany [⟨1, 10⟩, ⟨2, 20⟩]) ∧
    [1, 2, 1].map (dbCompany [⟨1, 10⟩, ⟨2, 20⟩])
      = [some ⟨1, 10⟩, some ⟨2, 20⟩, some ⟨1, 10⟩] :=
  ⟨rfl, (load_many_aligned [⟨1, 10⟩, ⟨2, 20⟩] emptyLoader [1, 2, 1] rfl).1,
    by decide⟩

/-- C1 counterexample: memoization is keyed by the whole key-list string,
not by individual keys.  After `load(1)` has fetched key 1, the call
`load_many([1, 2])` in the same request misses the cache and invokes the
fetcher again with a list containing key 1, so key 1 is fetched twice —
refuting "a given LoadKey is fetched at most once; any later call that
requests it returns the memoized value without a new fetch". -/
theorem key_refetched_across_different_lists :
    (CompanyDataLoader.load_many [⟨1, 10⟩, ⟨2, 20⟩]
        (CompanyDataLoader.load [⟨1, 10⟩, ⟨2, 20⟩] emptyLoader 1).2
        [1, 2]).2.fetchLog = [[1], [1, 2]] ∧
    ((CompanyDataLoader.load_many [⟨1, 10⟩, ⟨2, 20⟩]
        (CompanyDataLoader.load [⟨1, 10⟩, ⟨2, 20⟩] emptyLoader 1).2
        [1, 2]).2.fetchLog.countP (fun b => b.contains 1) = 2) := by
  decide

/-- Repeating a `load_many` call with an identical key list from the state
the first call produced returns the memoized result and leaves the state
untouched: on a hit both calls are identity on the state; on a miss the
first call stores the batch result under the key-list string, which the
second call finds. -/
theorem load_many_repeat (db : List Company) (st : LoaderState)
    (ks : List Nat) :
    CompanyDataLoader.load_many db (CompanyDataLoader.load_many db st ks).2
        ks
      = CompanyDataLoader.load_many db st ks := by
  unfold CompanyDataLoader.load_many execute_batch
  cases hks : ks.isEmpty with
  | true => simp [hks]
  | false =>
    cases h : st.cache.lookup (cacheKeyOf "companies" ks) with
    | some r => simp [hks, h]
    | none => simp [hks, h, List.lookup]

/-- C1 (amended): memoization is keyed by the exact requested key list.
A `load_many` call whose key list is identical to an earlier call's
returns the memoized result and leaves the loader state (cache and fetch
log) untouched — no new fetch; likewise two sequential `load(k)` calls
return the identical value with the second call a no-op on the state; and
from a fresh loader a first `load(k)` invokes the fetcher exactly once
with `[k]`, and a first `load_many` of a nonempty list `k :: t` invokes it
exactly once with that exact (unmodified) list. -/
theorem load_memoized_by_key_list (db : List Company) (st : LoaderState)
    (ks : List Nat) (k : Nat) (t : List Nat) :
    (CompanyDataLoader.load_many db
        (CompanyDataLoader.load_many db st ks).2 ks).1
        = (CompanyDataLoader.load_many db st ks).1 ∧
    (CompanyDataLoader.load_many db
        (CompanyDataLoader.load_many db st ks).2 ks).2
        = (CompanyDataLoader.load_many db st ks).2 ∧
    (CompanyDataLoader.load db (CompanyDataLoader.load db st k).2 k).1
        = (CompanyDataLoader.load db st k).1 ∧
    (CompanyDataLoader.load db (CompanyDataLoader.load db st k).2 k).2
        = (CompanyDataLoader.load db st k).2 ∧
    (CompanyDataLoader.load db emptyLoader k).2.fetchLog = [[k]] ∧
    (CompanyDataLoader.load_many db emptyLoader (k :: t)).2.fetchLog
      = [k :: t] := by
  refine ⟨congrArg Prod.fst (load_many_repeat db st ks),
    congrArg Prod.snd (load_many_repeat db st ks), ?_, ?_, ?_, ?_⟩
  · have h := load_many_repeat db st [k]
    simp [CompanyDataLoader.load, h]
  · have h := load_many_repeat db st [k]
    simp [CompanyDataLoader.load, h]
  · unfold CompanyDataLoader.load CompanyDataLoader.load_many execute_batch
    simp [emptyLoader, List.lookup]
  · unfold CompanyDataLoader.load_many execute_batch
    simp [emptyLoader, List.lookup]

/-- C2 at the failing input: two sequential `load` calls for the distinct
keys 1 and 2 issued in the same request invoke the fetcher twice, with
`[1]` and `[2]` — there is no coalescing window — and a single
`load_many([1, 2, 1])` passes the raw duplicate-preserving list to the
fetcher rather than the deduplicated set. -/
theorem fetcher_not_coalesced_not_deduplicated :
    (CompanyDataLoader.load [⟨1, 10⟩, ⟨2, 20⟩]
        (CompanyDataLoader.load [⟨1, 10⟩, ⟨2, 20⟩] emptyLoader 1).2
        2).2.fetchLog = [[1], [2]] ∧
    (CompanyDataLoader.load_many [⟨1, 10⟩, ⟨2, 20⟩] emptyLoader
        [1, 2, 1]).2.fetchLog = [[1, 2, 1]] := by
  decide

/-- C4 at the failing input: two concurrent `load(1)` tasks whose cache
checks both run before either in-flight batch resolves (the dict store in
`_execute_batch` happens only after the `await`) issue two fetcher
invocations for the same key instead of sharing one — no single-flight.
Both callers still receive the row. -/
theorem concurrent_loads_double_fetch :
    (runTwoTasks [⟨1, 10⟩] 1 1 [true, false, true, false]
        (.ready, .ready, emptyLoader)).2.2.fetchLog = [[1], [1]] ∧
    (runTwoTasks [⟨1, 10⟩] 1 1 [true, false, true, false]
        (.ready, .ready, emptyLoader)).1 = .done (some ⟨1, 10⟩) ∧
    (runTwoTasks [⟨1, 10⟩] 1 1 [true, false, true, false]
        (.ready, .ready, emptyLoader)).2.1 = .done (some ⟨1, 10⟩) := by
  decide

/-- C10: for one `JobApplicationDataLoader` and a fixed user, the per-user
memo is populated only by the first call's job-id list: the first call
performs exactly one fetch with `(u, ids₁)`, every subsequent call for the
same user leaves the state untouched (no further fetch), and its result
answers each requested job id from the first call's result map — so a job
id outside `ids₁` resolves to `none` even if the store holds an
application for it (the batch map only contains ids from `ids₁`). -/
theorem app_loader_memo_frozen (db : List JobApplication) (u : Nat)
    (ids₁ ids₂ : List Nat) (h : ids₁ ≠ []) :
    (JobApplicationDataLoader.load_user_applications_for_jobs db
        emptyAppLoader u ids₁).2.fetchLog = [(u, ids₁)] ∧
    (JobApplicationDataLoader.load_user_applications_for_jobs db
        (JobApplicationDataLoader.load_user_applications_for_jobs db
          emptyAppLoader u ids₁).2 u ids₂).2
      = (JobApplicationDataLoader.load_user_applications_for_jobs db
          emptyAppLoader u ids₁).2 ∧
    (JobApplicationDataLoader.load_user_applications_for_jobs db
        (JobApplicationDataLoader.load_user_applications_for_jobs db
          emptyAppLoader u ids₁).2 u ids₂).1
      = ids₂.map (fun j =>
          (j, (JobApplicationDataLoader.batch_load_user_applications db u
            ids₁).lookup j)) := by
  have h₁ : ids₁.isEmpty = false := by
    cases ids₁ with
    | nil => exact absurd rfl h
    | cons a t => rfl
  unfold JobApplicationDataLoader.load_user_applications_for_jobs
  cases h₂ : ids₂.isEmpty with
  | true =>
    have : ids₂ = [] := by simpa [List.isEmpty_iff] using h₂
    simp [h₁, h₂, emptyAppLoader, List.lookup, this]
  | false => simp [h₁, h₂, emptyAppLoader, List.lookup]

/-- C10 witness: the store holds applications of user 7 for jobs 5 and 6;
the first call asks only for job 5, so a later call asking for job 6
answers `none` from the frozen memo even though an application for job 6
exists in the store. -/
theorem app_loader_memo_frozen_witness :
    (([5] : List Nat) ≠ []) ∧
    (JobApplicationDataLoader.load_user_applications_for_jobs
        [⟨7, 5, 0⟩, ⟨7, 6, 0⟩]
        (JobApplicationDataLoader.load_user_applications_for_jobs
          [⟨7, 5, 0⟩, ⟨7, 6, 0⟩] emptyAppLoader 7 [5]).2 7 [6]).1
      = [(6, none)] := by
  refine ⟨by decide, ?_⟩
  have h := (app_loader_memo_frozen [⟨7, 5, 0⟩, ⟨7, 6, 0⟩] 7 [5] [6]
    (by decide)).2.2
  rw [h]
  decide

/-- C5: with a connected backing store, `set_job_search_results` never
reaches the store: evaluating `self.search_ttl` raises `AttributeError`
(the attribute is never assigned), the `except` swallows it, and the call
returns `False` with the store unchanged — although `ttl_config` does
register the 180-second default the code was meant to use.  Consequently a
subsequent `get` with the same parameters misses instead of returning the
value. -/
theorem set_job_search_results_never_writes (st : RedisStore) (now : Nat)
    (p : SearchParams) (payload : String) :
    set_job_search_results ⟨some st⟩ now p payload = (false, some st) ∧
    ttl_config.lookup "search" = some 180 ∧
    search_ttl = .error .attributeError ∧
    get_job_search_results ⟨some ⟨[], false⟩⟩ now p = none := by
  refine ⟨?_, by decide, rfl, ?_⟩
  · simp [set_job_search_results, search_ttl]
  · simp [get_job_search_results, redisGet]

/-- C6: cache operations fail open.  With the backing store raising on
every command (`down`), and likewise with no client connected at all,
`get` returns a miss (`None`), `set` returns `False` without raising, and
`invalidate` completes silently leaving the store untouched — the embedded
functions are total, every internal exception being caught. -/
theorem cache_ops_fail_open (entries : List (String × RedisEntry))
    (now : Nat) (p : SearchParams) (payload : String) :
    get_job_search_results ⟨some ⟨entries, true⟩⟩ now p = none ∧
    set_job_search_results ⟨some ⟨entries, true⟩⟩ now p payload
      = (false, some ⟨entries, true⟩) ∧
    invalidate_job_caches ⟨some ⟨entries, true⟩⟩
      = (some ⟨entries, true⟩, none) ∧
    get_job_search_results ⟨none⟩ now p = none ∧
    set_job_search_results ⟨none⟩ now p payload = (false, none) ∧
    invalidate_job_caches ⟨none⟩ = (none, none) := by
  refine ⟨?_, ?_, ?_, rfl, rfl, rfl⟩
  · simp [get_job_search_results, redisGet]
  · simp [set_job_search_results, search_ttl]
  · simp [invalidate_job_caches, redisKeys]

/-- C6 witness: a concrete down store with one entry, concrete parameters. -/
theorem cache_ops_fail_open_witness :
    get_job_search_results
      ⟨some ⟨[("jobquest:jobs:aa", ⟨"v", 100⟩)], true⟩⟩ 0
      ⟨20, 0, none, none, none, none, none, none⟩ = none ∧
    set_job_search_results
      ⟨some ⟨[("jobquest:jobs:aa", ⟨"v", 100⟩)], true⟩⟩ 0
      ⟨20, 0, none, none, none, none, none, none⟩ "r"
      = (false, some ⟨[("jobquest:jobs:aa", ⟨"v", 100⟩)], true⟩) ∧
    invalidate_job_caches ⟨some ⟨[("jobquest:jobs:aa", ⟨"v", 100⟩)], true⟩⟩
      = (some ⟨[("jobquest:jobs:aa", ⟨"v", 100⟩)], true⟩, none) :=
  ⟨(cache_ops_fail_open [("jobquest:jobs:aa", ⟨"v", 100⟩)] 0
      ⟨20, 0, none, none, none, none, none, none⟩ "r").1,
   (cache_ops_fail_open [("jobquest:jobs:aa", ⟨"v", 100⟩)] 0
      ⟨20, 0, none, none, none, none, none, none⟩ "r").2.1,
   (cache_ops_fail_open [("jobquest:jobs:aa", ⟨"v", 100⟩)] 0
      ⟨20, 0, none, none, none, none, none, none⟩ "r").2.2.1⟩

/-- C7 counterexample: on a store holding two keys under the
`jobquest:jobs:` namespace, `invalidate_job_caches` removes both but
returns Python `None` (modelled `none`), not the count 2 the claim
promises. -/
theorem invalidate_job_caches_returns_no_count :
    invalidate_job_caches ⟨some ⟨[("jobquest:jobs:aa", ⟨"v1", 100⟩),
        ("jobquest:jobs:bb", ⟨"v2", 100⟩),
        ("jobquest:company:cc", ⟨"v3", 100⟩)], false⟩⟩
      = (some ⟨[("jobquest:company:cc", ⟨"v3", 100⟩)], false⟩, none) ∧
    (none : Option Nat) ≠ some 2 := by
  decide

/-- Evaluation of `invalidate_job_caches` on a connected, healthy store:
it removes exactly the entries whose key starts with `jobquest:jobs:` and
returns `None`. -/
theorem invalidate_job_caches_ok (entries : List (String × RedisEntry)) :
    invalidate_job_caches ⟨some ⟨entries, false⟩⟩
      = (some ⟨entries.filter (fun e =>
          !(("jobquest:jobs:" : String).data.isPrefixOf e.1.data)), false⟩,
         none) := by
  have hpat : ("jobquest:jobs:*" : String).data.dropLast
      = ("jobquest:jobs:" : String).data := by decide
  have hks : redisKeys ⟨entries, false⟩ "jobquest:jobs:*"
      = .ok ((entries.map Prod.fst).filter
        (fun k => ("jobquest:jobs:" : String).data.isPrefixOf k.data)) := by
    simp [redisKeys, hpat]
  have hstep : invalidate_job_caches ⟨some ⟨entries, false⟩⟩
      = (match redisKeys ⟨entries, false⟩ "jobquest:jobs:*" with
        | .error _ => (some ⟨entries, false⟩, none)
        | .ok job_keys =>
          if job_keys.isEmpty then (some ⟨entries, false⟩, none)
          else
            match redisDelete ⟨entries, false⟩ job_keys with
            | .ok (st', _) => (some st', none)
            | .error _ => (some ⟨entries, false⟩, none)) := rfl
  rw [hstep, hks]
  show (if ((entries.map Prod.fst).filter
      (fun k => ("jobquest:jobs:" : String).data.isPrefixOf k.data
      )).isEmpty = true
    then (some (⟨entries, false⟩ : RedisStore), (none : Option Nat))
    else
      match redisDelete ⟨entries, false⟩ ((entries.map Prod.fst).filter
          (fun k => ("jobquest:jobs:" : String).data.isPrefixOf k.data)) with
      | .ok (st', _) => (some st', none)
      | .error _ => (some ⟨entries, false⟩, none)) = _
  cases hemp : ((entries.map Prod.fst).filter
      (fun k => ("jobquest:jobs:" : String).data.isPrefixOf k.data)).isEmpty
      with
  | true =>
    have hnil : (entries.map Prod.fst).filter
        (fun k => ("jobquest:jobs:" : String).data.isPrefixOf k.data)
        = [] := by
      simpa [List.isEmpty_iff] using hemp
    have hall := List.filter_eq_nil_iff.mp hnil
    have hself : entries.filter (fun e =>
        !(("jobquest:jobs:" : String).data.isPrefixOf e.1.data))
        = entries := by
      refine List.filter_eq_self.mpr (fun e he => ?_)
      have hb := hall e.1 (List.mem_map_of_mem Prod.fst he)
      have hfalse : ("jobquest:jobs:" : String).data.isPrefixOf e.1.data
          = false := by
        cases hx : ("jobquest:jobs:" : String).data.isPrefixOf e.1.data with
        | true => exact absurd hx hb
        | false => rfl
      simp [hfalse]
    simp [hemp, hself]
  | false =>
    have hagree : entries.filter (fun e =>
        !(((entries.map Prod.fst).filter
          (fun k => ("jobquest:jobs:" : String).data.isPrefixOf k.data
          )).contains e.1))
        = entries.filter (fun e =>
          !(("jobquest:jobs:" : String).data.isPrefixOf e.1.data)) := by
      refine List.filter_congr (fun e he => ?_)
      have hmem : e.1 ∈ entries.map Prod.fst :=
        List.mem_map_of_mem Prod.fst he
      cases hs : ("jobquest:jobs:" : String).data.isPrefixOf e.1.data with
      | true =>
        have hin : e.1 ∈ (entries.map Prod.fst).filter
            (fun k => ("jobquest:jobs:" : String).data.isPrefixOf k.data) :=
          List.mem_filter.mpr ⟨hmem, hs⟩
        have hc : ((entries.map Prod.fst).filter
            (fun k => ("jobquest:jobs:" : String).data.isPrefixOf k.data
            )).contains e.1 = true := by
          simpa using hin
        rw [hc]
      | false =>
        have hnin : e.1 ∉ (entries.map Prod.fst).filter
            (fun k => ("jobquest:jobs:" : String).data.isPrefixOf k.data) := by
          intro hin
          have := (List.mem_filter.mp hin).2
          simp [hs] at this
        have hc : ((entries.map Prod.fst).filter
            (fun k => ("jobquest:jobs:" : String).data.isPrefixOf k.data
            )).contains e.1 = false := by
          simpa using hnin
        rw [hc]
    show (some (⟨entries.filter (fun e =>
        !(((entries.map Prod.fst).filter
          (fun k => ("jobquest:jobs:" : String).data.isPrefixOf k.data
          )).contains e.1)), false⟩ : RedisStore), (none : Option Nat)) = _
    rw [hagree]

/-- C7 (amended): `invalidate_job_caches` deletes exactly the keys under
the `jobquest:jobs:` namespace key pattern, but returns `None` rather than
a count (the count is only printed), and any failure during invalidation
is swallowed, leaving the store untouched and never propagating. -/
theorem invalidate_job_caches_spec (entries : List (String × RedisEntry)) :
    (invalidate_job_caches ⟨some ⟨entries, false⟩⟩).2 = none ∧
    (invalidate_job_caches ⟨some ⟨entries, false⟩⟩).1
      = some ⟨entries.filter (fun e =>
          !(("jobquest:jobs:" : String).data.isPrefixOf e.1.data)), false⟩ ∧
    invalidate_job_caches ⟨some ⟨entries, true⟩⟩
      = (some ⟨entries, true⟩, none) := by
  refine ⟨?_, ?_, ?_⟩
  · rw [invalidate_job_caches_ok]
  · rw [invalidate_job_caches_ok]
  · simp [invalidate_job_caches, redisKeys]

/-- Transitivity of the item comparison used by `sorted`. -/
theorem itemLE_trans (a b c : String × PyVal) (hab : itemLE a b = true)
    (hbc : itemLE b c = true) : itemLE a c = true := by
  simp only [itemLE, decide_eq_true_eq] at *
  exact le_trans hab hbc

/-- Totality of the item comparison used by `sorted`. -/
theorem itemLE_total (a b : String × PyVal) :
    (itemLE a b || itemLE b a) = true := by
  rcases le_total a.1 b.1 with h | h <;> simp [itemLE, h]

/-- Two sorted key-value lists that are permutations of each other and
have pairwise-distinct keys are equal: the canonical order is unique. -/
theorem eq_of_perm_sorted_nodup_keys (l₁ : List (String × PyVal)) :
    ∀ l₂, l₁.Perm l₂ →
    l₁.Pairwise (fun p q => itemLE p q = true) →
    l₂.Pairwise (fun p q => itemLE p q = true) →
    (l₁.map Prod.fst).Nodup → l₁ = l₂ := by
  induction l₁ with
  | nil => intro l₂ hp _ _ _; exact hp.nil_eq
  | cons a t ih =>
    intro l₂ hp hs₁ hs₂ hnd
    cases l₂ with
    | nil => exact absurd hp.symm.nil_eq (by simp)
    | cons b t₂ =>
      rw [List.map_cons] at hnd
      have hndc := List.nodup_cons.mp hnd
      have hab : a = b := by
        have hmem_a : a ∈ b :: t₂ := hp.mem_iff.mp (List.mem_cons_self a t)
        rcases List.mem_cons.mp hmem_a with h | h
        · exact h
        · have hmem_b : b ∈ a :: t := hp.mem_iff.mpr (List.mem_cons_self b t₂)
          rcases List.mem_cons.mp hmem_b with h' | h'
          · exact h'.symm
          · have h₁ : a.1 ≤ b.1 := by
              have := (List.pairwise_cons.mp hs₁).1 b h'
              simpa [itemLE] using this
            have h₂ : b.1 ≤ a.1 := by
              have := (List.pairwise_cons.mp hs₂).1 a h
              simpa [itemLE] using this
            have heq : a.1 = b.1 := le_antisymm h₁ h₂
            have hin : b.1 ∈ t.map Prod.fst := List.mem_map_of_mem Prod.fst h'
            rw [← heq] at hin
            exact absurd hin hndc.1
      subst hab
      have ht : t.Perm t₂ := hp.cons_inv
      rw [ih t₂ ht (List.pairwise_cons.mp hs₁).2
        (List.pairwise_cons.mp hs₂).2 hndc.2]

/-- `sorted(kwargs.items())` is canonical: permuting the insertion order of
distinct-keyed items does not change the sorted list. -/
theorem mergeSort_eq_of_perm (l₁ l₂ : List (String × PyVal))
    (hp : l₁.Perm l₂) (hnd : (l₁.map Prod.fst).Nodup) :
    l₁.mergeSort itemLE = l₂.mergeSort itemLE := by
  have hperm : (l₁.mergeSort itemLE).Perm (l₂.mergeSort itemLE) :=
    ((List.mergeSort_perm l₁ itemLE).trans hp).trans
      (List.mergeSort_perm l₂ itemLE).symm
  have hnd₁ : ((l₁.mergeSort itemLE).map Prod.fst).Nodup :=
    (List.Perm.nodup_iff ((List.mergeSort_perm l₁ itemLE).map Prod.fst)).mpr
      hnd
  exact eq_of_perm_sorted_nodup_keys _ _ hperm
    (List.sorted_mergeSort itemLE_trans itemLE_total l₁)
    (List.sorted_mergeSort itemLE_trans itemLE_total l₂) hnd₁

/-- The MD5 digest always has 16 bytes. -/
theorem length_md5Bytes (msg : List Nat) : (md5Bytes msg).length = 16 := by
  simp [md5Bytes, toLE4]

/-- The MD5 hex digest always has 32 characters. -/
theorem length_md5HexChars (msg : List Nat) :
    (md5HexChars msg).length = 32 := by
  have h : ∀ l : List Nat, (l.flatMap byteHex).length = 2 * l.length := by
    intro l
    induction l with
    | nil => rfl
    | cons a t ih =>
      simp only [List.flatMap_cons, List.length_append, ih, byteHex,
        List.length_cons, List.length_nil]
      ring
  simp [md5HexChars, h, length_md5Bytes]

/-- C8: the cache key builder is order-independent and deterministic —
two kwargs dicts with the same distinct-keyed items in any insertion order
produce the identical key — and every produced key has the shape
`jobquest:{namespace}:{hash}` where the hash is the fixed-width (8
character) truncation of the MD5 hex digest of the canonically sorted
serialization. -/
theorem generate_cache_key_canonical (pre : String)
    (l₁ l₂ : List (String × PyVal)) (hp : l₁.Perm l₂)
    (hnd : (l₁.map Prod.fst).Nodup) :
    generate_cache_key pre l₁ = generate_cache_key pre l₂ ∧
    ∃ h : String, generate_cache_key pre l₁
        = "jobquest:" ++ pre ++ ":" ++ h ∧ h.length = 8 := by
  constructor
  · unfold generate_cache_key
    rw [mergeSort_eq_of_perm l₁ l₂ hp hnd]
  · refine ⟨⟨(md5HexChars (utf8Encode (serializeParams
      (l₁.mergeSort itemLE)))).take 8⟩, rfl, ?_⟩
    have hmk : ∀ l : List Char, (String.mk l).length = l.length :=
      fun _ => rfl
    rw [hmk]
    simp [List.length_take, length_md5HexChars]

/-- C8 witness: the two-parameter dict of the search namespace supplied in
both insertion orders yields the same key. -/
theorem generate_cache_key_canonical_witness :
    ([("limit", PyVal.int 20), ("offset", PyVal.int 0)].Perm
      [("offset", PyVal.int 0), ("limit", PyVal.int 20)]) ∧
    (([("limit", PyVal.int 20),
        ("offset", PyVal.int 0)].map Prod.fst).Nodup) ∧
    generate_cache_key "jobs"
        [("limit", PyVal.int 20), ("offset", PyVal.int 0)]
      = generate_cache_key "jobs"
        [("offset", PyVal.int 0), ("limit", PyVal.int 20)] :=
  ⟨by decide, by decide,
    (generate_cache_key_canonical "jobs" _ _ (by decide) (by decide)).1⟩

/-- C9: whatever the timed body does with the yielded "hit" callback —
however many times it invokes it — the flag `track_cache_operation` hands
to `record_cache_operation` in its `finally` clause is `False`, so every
operation timed through the helper is recorded as a miss: the lambda
applying `setattr` over `locals()` never rebinds the enclosing `hit`. -/
theorem tracked_cache_op_always_miss (m : MetricsCollector)
    (operation_type : String) (n dur : Nat) :
    (track_cache_operation m operation_type n dur).cache_operations
      = m.cache_operations ++ [⟨operation_type, false, dur⟩] := by
  have h : ∀ k, runBody k false = false := by
    intro k
    cases k with
    | zero => rfl
    | succ k' => rfl
  simp [track_cache_operation, h, record_cache_operation]

end JN

